import Mathlib

/-!
Shallow embedding of the frame-transport core of the repository:

* `SharedFrameBuffer` (src/Mustan_ML_Stuff/modules/shared_frame_buffer.py):
  a single-slot memory-mapped mailbox with a 24-byte little-endian header
  (`width, height, channels, timestamp_sec, timestamp_usec, frame_size`,
  each an unsigned 32-bit field packed by `struct.pack('6I', ...)`),
  followed by the frame payload, plus a separate 4-byte preview flag file.

* `CameraCapture` (src/Mustan_ML_Stuff/eye_pipeline/modules/camera_input.py):
  a threaded camera reader exposing a copying `read_frame` accessor.

The memory-mapped region is modelled as a `List Nat` of byte values; the
nondeterministic environment (wall-clock timestamp, JPEG encoder output,
camera grab results, filesystem outcomes) is passed in explicitly as
parameters, exactly where the Python code consults it.
-/

namespace SharedFrameBuffer

def HEADER_SIZE : Nat := 24

def MAX_FRAME_SIZE : Nat := 1920 * 1080 * 3

def TOTAL_SIZE : Nat := HEADER_SIZE + MAX_FRAME_SIZE

/-- Model of `struct.pack('I', v)`: four little-endian bytes.  The Python call raises
`struct.error` for `v ≥ 2^32`; callers model that by checking the bound. -/
def packU32 (v : Nat) : List Nat :=
  [v % 256, v / 256 % 256, v / 256 ^ 2 % 256, v / 256 ^ 3 % 256]

/-- Model of `struct.unpack('I', b)` on the first four bytes of `b` (little-endian).
Every call site first checks that at least four bytes are available, as the
Python code's reads always provide exactly the required byte count. -/
def unpackU32 (b : List Nat) : Nat :=
  match b with
  | b0 :: b1 :: b2 :: b3 :: _ => b0 + 256 * (b1 + 256 * (b2 + 256 * b3))
  | _ => 0

/-- Python `str.replace(pat, rep)` restricted to a non-empty pattern:
replace every non-overlapping occurrence, scanning left to right.
`fuel` bounds the recursion; callers pass the string length, which
suffices because each step consumes at least one character. -/
def pyReplaceAux (pat rep : List Char) : Nat → List Char → List Char
  | 0, s => s
  | _ + 1, [] => []
  | fuel + 1, c :: rest =>
    if pat.isPrefixOf (c :: rest) then
      rep ++ pyReplaceAux pat rep fuel (List.drop (pat.length - 1) rest)
    else
      c :: pyReplaceAux pat rep fuel rest

def pyReplace (s pat rep : String) : String :=
  ⟨pyReplaceAux pat.data rep.data s.data.length s.data⟩

/-- Embeds `self.flag_path = file_path.replace('.mmap', '_flag.mmap')`. -/
def flag_path (file_path : String) : String :=
  pyReplace file_path ".mmap" "_flag.mmap"

/-- A decoded frame (`np.frombuffer(...).reshape((height, width, channels))`). -/
structure Frame where
  height : Nat
  width : Nat
  channels : Nat
  data : List Nat
  deriving Repr, DecidableEq

/-- Result of `read_frame_info`. -/
structure FrameInfo where
  width : Nat
  height : Nat
  channels : Nat
  timestamp : ℚ
  frame_size : Nat
  deriving Repr, DecidableEq

/-- The live state of a `SharedFrameBuffer` object: the mapped frame region
(`none` models `self.mmap_file is None` or a closed/unusable map), whether
the region was mapped `ACCESS_WRITE` (create) or `ACCESS_READ` (open), and
the mapped 4-byte flag region (`none` models an unmapped/unreadable flag). -/
structure Mailbox where
  region : Option (List Nat)
  writable : Bool
  flag : Option (List Nat)
  deriving Repr, DecidableEq

/-- Constructor `SharedFrameBuffer(path, create=True)`: `_create_buffer` zero-fills the
file to `TOTAL_SIZE`, maps it `ACCESS_WRITE` and writes an all-zero header
(a no-op over the zero fill); `_create_flag_file` writes `struct.pack('I', 1)`
and maps the 4-byte flag file. -/
def create : Mailbox :=
  { region := some (List.replicate TOTAL_SIZE 0)
    writable := true
    flag := some (packU32 1) }

/-- Filesystem outcomes consulted by `SharedFrameBuffer(path, create=False)`:
the bytes of the existing data file's mapping, whether opening the flag file
succeeds (with its bytes), and whether the fallback `_create_flag_file`
would succeed. -/
structure OpenEnv where
  dataBytes : List Nat
  flagOpen : Option (List Nat)
  flagCreateOk : Bool

/-- Constructor `SharedFrameBuffer(path, create=False)`: `_open_buffer` maps the data
file `ACCESS_READ`; `_open_flag_file` maps the flag file, and on failure
falls back to `_create_flag_file` (which initializes the flag to `1`), only
raising — `none` here — if that fallback also fails. -/
def openExisting (env : OpenEnv) : Option Mailbox :=
  match env.flagOpen with
  | some flagBytes =>
      some { region := some env.dataBytes, writable := false, flag := some flagBytes }
  | none =>
      if env.flagCreateOk then
        some { region := some env.dataBytes, writable := false, flag := some (packU32 1) }
      else
        none

/-- Method `is_preview_enabled`: with a mapped flag region, unpack its four bytes
and compare with `1`; any failure (no mapping, wrong size) returns `False`. -/
def is_preview_enabled (m : Mailbox) : Bool :=
  match m.flag with
  | some flagBytes =>
      if flagBytes.length = 4 then decide (unpackU32 flagBytes = 1) else false
  | none => false

/-- Method `write_frame(frame, quality)`.  `height, width, channels = frame.shape`
is passed in destructured; `jpeg` is the result of `cv2.imencode` (`none`
models encode failure), and `tsec, tusec` the `time.time()` split.  Returns
the Python function's boolean together with the post-state.  Order of the
checks follows the source: `mmap_file is None` guard, encode-success guard,
size-limit check, `struct.pack` range check (raises, caught, `False`), then
the actual `mmap` writes, which raise (caught, `False`) on a read-only map
before any byte is modified. -/
def write_frame (m : Mailbox) (height width channels : Nat)
    (jpeg : Option (List Nat)) (tsec tusec : Nat) : Bool × Mailbox :=
  match m.region with
  | none => (false, m)
  | some region =>
    match jpeg with
    | none => (false, m)
    | some jpegBytes =>
      let frame_size := jpegBytes.length
      if frame_size > MAX_FRAME_SIZE then
        (false, m)
      else if width < 2 ^ 32 ∧ height < 2 ^ 32 ∧ channels < 2 ^ 32 ∧
          tsec < 2 ^ 32 ∧ tusec < 2 ^ 32 then
        if m.writable then
          let header := packU32 width ++ packU32 height ++ packU32 channels ++
            packU32 tsec ++ packU32 tusec ++ packU32 frame_size
          (true, { m with
            region := some (header ++ jpegBytes ++
              region.drop (HEADER_SIZE + frame_size)) })
        else
          (false, m)
      else
        (false, m)

/-- Method `read_frame`: `(None, None)` when no map; unpack the six header fields;
`(None, None)` when `width`, `height` or `frame_size` is zero; read
`frame_size` payload bytes (the map yields at most the bytes remaining) and
reshape them as `(height, width, channels)` — `np.reshape` raises (caught,
`(None, None)`) unless the byte count is exactly `height*width*channels`.
The timestamp is reconstructed as `ts_sec + ts_usec / 1_000_000`. -/
def read_frame (m : Mailbox) : Option (Frame × ℚ) :=
  match m.region with
  | none => none
  | some region =>
    if region.length < HEADER_SIZE then none
    else
      let width := unpackU32 region
      let height := unpackU32 (region.drop 4)
      let channels := unpackU32 (region.drop 8)
      let ts_sec := unpackU32 (region.drop 12)
      let ts_usec := unpackU32 (region.drop 16)
      let frame_size := unpackU32 (region.drop 20)
      if width = 0 ∨ height = 0 ∨ frame_size = 0 then none
      else
        let frame_data := (region.drop HEADER_SIZE).take frame_size
        if frame_data.length = height * width * channels then
          some ({ height := height, width := width, channels := channels,
                  data := frame_data },
                (ts_sec : ℚ) + (ts_usec : ℚ) / 1000000)
        else
          none

/-- Method `read_frame_info`: header-only read; `None` when no map; `None` when
`width` or `height` is zero (`frame_size` is not checked); never touches
the payload bytes. -/
def read_frame_info (m : Mailbox) : Option FrameInfo :=
  match m.region with
  | none => none
  | some region =>
    if region.length < HEADER_SIZE then none
    else
      let width := unpackU32 region
      let height := unpackU32 (region.drop 4)
      let channels := unpackU32 (region.drop 8)
      let ts_sec := unpackU32 (region.drop 12)
      let ts_usec := unpackU32 (region.drop 16)
      let frame_size := unpackU32 (region.drop 20)
      if width = 0 ∨ height = 0 then none
      else
        some { width := width, height := height, channels := channels,
               timestamp := (ts_sec : ℚ) + (ts_usec : ℚ) / 1000000,
               frame_size := frame_size }

end SharedFrameBuffer

namespace CameraCapture

/-- A camera raster value; `copy` below models `ndarray.copy()`, which hands
back an independent buffer holding the same pixels. -/
structure CamFrame where
  data : List Nat
  deriving Repr, DecidableEq

/-- Model of `frame.copy()`: a fresh buffer with identical contents (value-equal). -/
def copy (f : CamFrame) : CamFrame :=
  { data := f.data }

/-- The fields of a `CameraCapture` object that its public behaviour
depends on. -/
structure Camera where
  is_opened : Bool
  grabbed : Bool
  frame : Option CamFrame
  stop_thread : Bool
  deriving Repr, DecidableEq

/-- Constructor `CameraCapture.__init__`: not opened, nothing grabbed, no frame. -/
def init : Camera :=
  { is_opened := false, grabbed := false, frame := none, stop_thread := false }

/-- Method `start()`: `openOk` is `cv2.VideoCapture(...).isOpened()`; `priming` the
result of the first synchronous `capture.read()` (`none` when the grab
fails).  On open failure the raised error is caught and `False` returned
with the state untouched; on grab failure `is_opened` is already `True` but
`grabbed` stays `False`; on success the background thread is started. -/
def start (c : Camera) (openOk : Bool) (priming : Option CamFrame) :
    Bool × Camera :=
  if openOk then
    match priming with
    | none => (false, { c with is_opened := true, grabbed := false, frame := none })
    | some f =>
        (true, { c with is_opened := true, grabbed := true, frame := some f, stop_thread := false })
  else
    (false, c)

/-- One iteration of the `_update` background loop: a successful
`capture.read()` publishes the new frame; a failed one leaves the slot as
it was (the thread only sleeps briefly). -/
def update_step (c : Camera) (grab : Option CamFrame) : Camera :=
  match grab with
  | some f => { c with grabbed := true, frame := some f }
  | none => c

/-- Method `read_frame()`: `(False, None)` unless opened; `(False, None)` unless a
frame has been grabbed and stored; otherwise `(True, frame.copy())`. -/
def read_frame (c : Camera) : Bool × Option CamFrame :=
  if !c.is_opened then (false, none)
  else
    match c.frame with
    | some f => if c.grabbed then (true, some (copy f)) else (false, none)
    | none => (false, none)

/-- Method `stop()`: signal the thread, join it, release the device, and clear
`is_opened`. -/
def stop (c : Camera) : Camera :=
  { c with stop_thread := true, is_opened := false }

end CameraCapture

namespace SharedFrameBuffer

theorem unpackU32_packU32_append (v : Nat) (l : List Nat) (hv : v < 2 ^ 32) :
    unpackU32 (packU32 v ++ l) = v := by
  simp [packU32, unpackU32]
  omega

theorem unpackU32_packU32_append_mod (v : Nat) (l : List Nat) :
    unpackU32 (packU32 v ++ l) = v % 2 ^ 32 := by
  simp [packU32, unpackU32]
  omega

theorem unpackU32_replicate_zero (n : Nat) :
    unpackU32 (List.replicate (n + 4) 0) = 0 := by
  simp [List.replicate_succ, unpackU32]

/-- The region written by a successful `write_frame`, with its appends
normalised to the right. -/
theorem write_region_assoc (w h c ts tu fs : Nat) (tail : List Nat) :
    (packU32 w ++ packU32 h ++ packU32 c ++ packU32 ts ++ packU32 tu ++
        packU32 fs) ++ tail =
      packU32 w ++ (packU32 h ++ (packU32 c ++ (packU32 ts ++ (packU32 tu ++
        (packU32 fs ++ tail))))) := by
  simp [List.append_assoc]

/-- Behaviour of `read_frame` immediately after a successful `write_frame`
on the same mailbox: the raw compressed payload is *not* decompressed, so
the reshape succeeds only in the degenerate case where the payload length
happens to equal `height * width * channels`. -/
theorem read_frame_after_write (m : Mailbox) (region : List Nat)
    (height width channels : Nat) (jpeg : List Nat) (tsec tusec : Nat)
    (hreg : m.region = some region) (hwr : m.writable = true)
    (hL : jpeg.length ≤ MAX_FRAME_SIZE)
    (hw : width < 2 ^ 32) (hh : height < 2 ^ 32) (hc : channels < 2 ^ 32)
    (hts : tsec < 2 ^ 32) (htu : tusec < 2 ^ 32) :
    read_frame (write_frame m height width channels (some jpeg) tsec tusec).2 =
      if width = 0 ∨ height = 0 ∨ jpeg.length = 0 then none
      else if jpeg.length = height * width * channels then
        some ({ height := height, width := width, channels := channels,
                data := jpeg },
              (tsec : ℚ) + (tusec : ℚ) / 1000000)
      else none := by
  have hnotgt : ¬ jpeg.length > MAX_FRAME_SIZE := Nat.not_lt.mpr hL
  have hfs : jpeg.length < 2 ^ 32 := by
    have : MAX_FRAME_SIZE < 2 ^ 32 := by norm_num [MAX_FRAME_SIZE]
    omega
  set tail := region.drop (HEADER_SIZE + jpeg.length) with htail
  have hwrite : (write_frame m height width channels (some jpeg) tsec tusec).2 = { m with region := some ((packU32 width ++ packU32 height ++ packU32 channels ++ packU32 tsec ++ packU32 tusec ++ packU32 jpeg.length) ++ (jpeg ++ tail)) } := by
    simp only [write_frame, hreg]
    rw [if_neg hnotgt, if_pos ⟨hw, hh, hc, hts, htu⟩, if_pos hwr]
    simp [List.append_assoc]
  rw [hwrite]
  rw [write_region_assoc]
  set R := packU32 width ++ (packU32 height ++ (packU32 channels ++
    (packU32 tsec ++ (packU32 tusec ++ (packU32 jpeg.length ++
      (jpeg ++ tail)))))) with hR
  have hd4 : R.drop 4 = packU32 height ++ (packU32 channels ++
      (packU32 tsec ++ (packU32 tusec ++ (packU32 jpeg.length ++
        (jpeg ++ tail))))) := rfl
  have hd8 : R.drop 8 = packU32 channels ++
      (packU32 tsec ++ (packU32 tusec ++ (packU32 jpeg.length ++
        (jpeg ++ tail)))) := rfl
  have hd12 : R.drop 12 = packU32 tsec ++ (packU32 tusec ++
      (packU32 jpeg.length ++ (jpeg ++ tail))) := rfl
  have hd16 : R.drop 16 = packU32 tusec ++
      (packU32 jpeg.length ++ (jpeg ++ tail)) := rfl
  have hd20 : R.drop 20 = packU32 jpeg.length ++ (jpeg ++ tail) := rfl
  have hd24 : R.drop HEADER_SIZE = jpeg ++ tail := rfl
  have hlen : ¬ R.length < HEADER_SIZE := by
    rw [hR]
    simp [packU32, HEADER_SIZE]
  have htake : (jpeg ++ tail).take jpeg.length = jpeg := List.take_left jpeg tail
  simp only [read_frame, hlen, if_false,
    hd4, hd8, hd12, hd16, hd20, hd24, htake,
    unpackU32_packU32_append _ _ hw, unpackU32_packU32_append _ _ hh,
    unpackU32_packU32_append _ _ hc, unpackU32_packU32_append _ _ hts,
    unpackU32_packU32_append _ _ htu, unpackU32_packU32_append _ _ hfs]

/-- C1: the claim says `read_frame` immediately after `write_frame(F, quality)`
returns a non-`None` frame with `F`'s dimensions, the payload being
decompressed before raster reconstruction.  The code never decompresses:
`read_frame` reshapes the raw JPEG bytes, which raises (and is caught as
`(None, None)`) whenever the compressed size differs from
`width*height*channels`.  Evaluated here at a 640×480×3 frame whose JPEG
encoding is 30000 bytes, written into a fresh mailbox: `read_frame` yields
`none`, not the frame. -/
theorem c1_write_read_roundtrip_loses_frame :
    read_frame (write_frame create 480 640 3 (some (List.replicate 30000 1)) 1700000000 250000).2 = none := by
  rw [read_frame_after_write create (List.replicate TOTAL_SIZE 0) 480 640 3
    (List.replicate 30000 1) 1700000000 250000 rfl rfl
    (by norm_num [MAX_FRAME_SIZE]) (by norm_num) (by norm_num) (by norm_num)
    (by norm_num) (by norm_num)]
  norm_num

/-- C2: a frame whose compressed payload exceeds `MAX_FRAME_SIZE` is
rejected: `write_frame` returns `False` and the whole mailbox state —
header and payload bytes included — is exactly what it was before. -/
theorem c2_oversized_write_rejected (m : Mailbox) (height width channels : Nat)
    (jpegBytes : List Nat) (tsec tusec : Nat)
    (hbig : MAX_FRAME_SIZE < jpegBytes.length) :
    write_frame m height width channels (some jpegBytes) tsec tusec = (false, m) := by
  cases hr : m.region with
  | none => simp [write_frame, hr]
  | some region => simp [write_frame, hr, hbig]

theorem c2_oversized_write_rejected_witness :
    write_frame create 1 1 3 (some (List.replicate (MAX_FRAME_SIZE + 1) 0)) 0 0 = (false, create) :=
  c2_oversized_write_rejected create 1 1 3 (List.replicate (MAX_FRAME_SIZE + 1) 0) 0 0
    (by simp)

/-- C3: a freshly created mailbox (zero-filled region, all-zero 24-byte
header) yields the no-frame results: `read_frame` returns `(None, None)`
and `read_frame_info` returns `None`. -/
theorem c3_fresh_mailbox_no_frame :
    read_frame create = none ∧ read_frame_info create = none := by
  have hrep : (TOTAL_SIZE : Nat) = 6220820 + 4 := by
    norm_num [TOTAL_SIZE, HEADER_SIZE, MAX_FRAME_SIZE]
  have hz : unpackU32 (List.replicate TOTAL_SIZE (0 : Nat)) = 0 := by
    rw [hrep]; exact unpackU32_replicate_zero _
  have hlen : ¬ (List.replicate TOTAL_SIZE (0 : Nat)).length < HEADER_SIZE := by
    norm_num [TOTAL_SIZE, HEADER_SIZE, MAX_FRAME_SIZE]
  constructor
  · simp [read_frame, create, hlen, hz]
  · simp [read_frame_info, create, hlen, hz]

theorem unpackU32_append_left (l x : List Nat) (hl : 4 ≤ l.length) :
    unpackU32 (l ++ x) = unpackU32 l := by
  match l with
  | [] | [_] | [_, _] | [_, _, _] => simp at hl
  | _ :: _ :: _ :: _ :: _ => simp [unpackU32]

/-- A mailbox state whose header says `width = 1, height = 1, channels = 3,
timestamp = 0, frame_size = 0` — reachable, e.g., by an external writer. -/
def c4Region : List Nat :=
  packU32 1 ++ packU32 1 ++ packU32 3 ++ packU32 0 ++ packU32 0 ++ packU32 0

def c4State : Mailbox :=
  { region := some c4Region, writable := true, flag := some (packU32 1) }

/-- C4 counterexample: the claim says `read_frame_info` returns `None`
exactly when width, height, *or `frame_size`* is zero.  On a header with
`width = 1, height = 1, frame_size = 0`, `read_frame` returns `(None, None)`
but `read_frame_info` returns a populated info record: the `frame_size = 0`
case is *not* part of `read_frame_info`'s validation. -/
theorem c4_info_ignores_frame_size_counterexample :
    read_frame_info c4State =
      some { width := 1, height := 1, channels := 3, timestamp := 0, frame_size := 0 } ∧
    read_frame c4State = none := by
  have e0 : unpackU32 c4Region = 1 := by decide
  have e4 : unpackU32 (c4Region.drop 4) = 1 := by decide
  have e8 : unpackU32 (c4Region.drop 8) = 3 := by decide
  have e12 : unpackU32 (c4Region.drop 12) = 0 := by decide
  have e16 : unpackU32 (c4Region.drop 16) = 0 := by decide
  have e20 : unpackU32 (c4Region.drop 20) = 0 := by decide
  have hlen : ¬ c4Region.length < HEADER_SIZE := by decide
  constructor
  · simp only [read_frame_info, c4State, hlen, if_false, e0, e4, e8, e12, e16, e20]
    norm_num
  · simp only [read_frame, c4State, hlen, if_false, e0, e4, e20]
    norm_num

/-- C4 (amended): `read_frame_info` validates only `width` and `height`
(not `frame_size`): on any mapped region of at least header size it returns
`None` exactly when the decoded width or height is zero; and its result
depends only on the 24 header bytes, never on the payload bytes. -/
theorem c4_info_validation_amended :
    (∀ (m : Mailbox) (region : List Nat), m.region = some region →
        HEADER_SIZE ≤ region.length →
        (read_frame_info m = none ↔
          unpackU32 region = 0 ∨ unpackU32 (region.drop 4) = 0)) ∧
    (∀ (wr wr' : Bool) (fl fl' : Option (List Nat)) (hdr pay pay' : List Nat),
        hdr.length = HEADER_SIZE →
        read_frame_info { region := some (hdr ++ pay), writable := wr, flag := fl } =
          read_frame_info { region := some (hdr ++ pay'), writable := wr', flag := fl' }) := by
  constructor
  · intro m region hreg hlen
    simp only [read_frame_info, hreg]
    rw [if_neg (Nat.not_lt.mpr hlen)]
    split
    · simp_all
    · simp_all
  · intro wr wr' fl fl' hdr pay pay' hlen
    have key : ∀ (pay₀ : List Nat) (wr₀ : Bool) (fl₀ : Option (List Nat)),
        read_frame_info { region := some (hdr ++ pay₀), writable := wr₀, flag := fl₀ } =
          if unpackU32 hdr = 0 ∨ unpackU32 (hdr.drop 4) = 0 then none
          else some { width := unpackU32 hdr, height := unpackU32 (hdr.drop 4),
                      channels := unpackU32 (hdr.drop 8),
                      timestamp := (unpackU32 (hdr.drop 12) : ℚ) + (unpackU32 (hdr.drop 16) : ℚ) / 1000000,
                      frame_size := unpackU32 (hdr.drop 20) } := by
      intro pay₀ wr₀ fl₀
      have hnl : ¬ (hdr ++ pay₀).length < HEADER_SIZE := by
        simp [hlen]
      have e0 : unpackU32 (hdr ++ pay₀) = unpackU32 hdr :=
        unpackU32_append_left hdr pay₀ (by rw [hlen]; norm_num [HEADER_SIZE])
      have ek : ∀ k, k ≤ 20 → unpackU32 ((hdr ++ pay₀).drop k) = unpackU32 (hdr.drop k) := by
        intro k hk
        rw [List.drop_append_of_le_length (by rw [hlen]; show k ≤ 24; omega)]
        exact unpackU32_append_left _ _
          (by rw [List.length_drop, hlen]; show 4 ≤ 24 - k; omega)
      simp only [read_frame_info, hnl, if_false, e0,
        ek 4 (by omega), ek 8 (by omega), ek 12 (by omega),
        ek 16 (by omega), ek 20 (by omega)]
    rw [key pay wr fl, key pay' wr' fl']

theorem c4_info_validation_amended_witness :
    read_frame_info c4State = none ↔
      unpackU32 c4Region = 0 ∨ unpackU32 (c4Region.drop 4) = 0 :=
  c4_info_validation_amended.1 c4State c4Region rfl (by decide)

/-- C5: `is_preview_enabled` returns `True` iff the mapped 4-byte flag
region decodes to the value `1`; with no readable flag mapping it returns
`False`; and immediately after `create` (flag file initialised to `1`) it
returns `True`. -/
theorem c5_preview_flag_semantics :
    (∀ (m : Mailbox) (flagBytes : List Nat), m.flag = some flagBytes →
        (is_preview_enabled m = true ↔
          flagBytes.length = 4 ∧ unpackU32 flagBytes = 1)) ∧
    (∀ m : Mailbox, m.flag = none → is_preview_enabled m = false) ∧
    is_preview_enabled create = true := by
  refine ⟨?_, ?_, ?_⟩
  · intro m fb hfb
    by_cases h4 : fb.length = 4
    · simp [is_preview_enabled, hfb, h4]
    · simp [is_preview_enabled, hfb, h4]
  · intro m hm
    simp [is_preview_enabled, hm]
  · decide

theorem c5_preview_flag_semantics_witness :
    is_preview_enabled { region := none, writable := false, flag := none } = false :=
  c5_preview_flag_semantics.2.1 { region := none, writable := false, flag := none } rfl

theorem isPrefixOf_self (l : List Char) : l.isPrefixOf l = true := by
  induction l with
  | nil => rfl
  | cons c cs ih => simp [List.isPrefixOf, ih]

theorem pyReplaceAux_nil (pat rep : List Char) (fuel : Nat) :
    pyReplaceAux pat rep fuel [] = [] := by
  cases fuel <;> rfl

/-- When the scanned string is a stem followed by one pattern occurrence and
the pattern matches at no position inside the stem (spanning included),
`pyReplaceAux` rewrites exactly that final occurrence. -/
theorem pyReplaceAux_stem_pat (pat rep : List Char) (hpat : pat ≠ []) :
    ∀ (stem : List Char) (fuel : Nat), (stem ++ pat).length ≤ fuel →
      (∀ i, i < stem.length → pat.isPrefixOf ((stem ++ pat).drop i) = false) →
      pyReplaceAux pat rep fuel (stem ++ pat) = stem ++ rep := by
  intro stem
  induction stem with
  | nil =>
    intro fuel hfuel _
    obtain ⟨p, ps, rfl⟩ : ∃ p ps, pat = p :: ps := by
      cases pat with
      | nil => exact absurd rfl hpat
      | cons p ps => exact ⟨p, ps, rfl⟩
    obtain ⟨f, rfl⟩ : ∃ f, fuel = f + 1 := by
      cases fuel with
      | zero => simp at hfuel
      | succ f => exact ⟨f, rfl⟩
    simp only [List.nil_append]
    simp only [pyReplaceAux, isPrefixOf_self, if_true]
    have hps : (p :: ps).length - 1 = ps.length := by simp
    rw [hps, List.drop_length, pyReplaceAux_nil]
    simp
  | cons c st ih =>
    intro fuel hfuel hno
    obtain ⟨f, rfl⟩ : ∃ f, fuel = f + 1 := by
      cases fuel with
      | zero => simp at hfuel
      | succ f => exact ⟨f, rfl⟩
    have h0 : pat.isPrefixOf (c :: (st ++ pat)) = false := by
      have h := hno 0 (by simp)
      simpa using h
    simp only [List.cons_append, pyReplaceAux, List.append_eq]
    rw [if_neg (by simp [h0])]
    rw [ih f (by simp at hfuel ⊢; omega) ?_]
    intro i hi
    have h := hno (i + 1) (by simp; omega)
    simpa using h

/-- C6 counterexample: the claim says the flag path is always obtained by
replacing only the data file's `.mmap` extension, giving a file distinct
from the data file.  `file_path.replace('.mmap', '_flag.mmap')` does
neither in general: a path without a `.mmap` extension is returned
untouched, so the "flag file" coincides with the data file. -/
theorem c6_flag_path_counterexample : flag_path "frame.bin" = "frame.bin" := by
  decide

/-- C6 (amended): the flag path is the data path with *every* occurrence of
`.mmap` replaced by `_flag.mmap` (Python `str.replace`).  When the data
path is a stem containing no `.mmap` occurrence followed by the `.mmap`
extension, this replaces exactly the extension and the flag path is a
distinct sibling; a path with no `.mmap` occurrence at all maps to itself. -/
theorem c6_flag_path_amended (stem : List Char)
    (hno : ∀ i, i < stem.length →
      (".mmap".data.isPrefixOf ((stem ++ ".mmap".data).drop i)) = false) :
    flag_path ⟨stem ++ ".mmap".data⟩ = ⟨stem ++ "_flag.mmap".data⟩ ∧
    (⟨stem ++ "_flag.mmap".data⟩ : String) ≠ ⟨stem ++ ".mmap".data⟩ := by
  constructor
  · show (⟨pyReplaceAux _ _ _ _⟩ : String) = _
    congr 1
    exact pyReplaceAux_stem_pat ".mmap".data "_flag.mmap".data (by decide) stem
      (stem ++ ".mmap".data).length le_rfl hno
  · intro h
    have hd := congrArg String.data h
    simp only [String.data] at hd
    have := List.append_cancel_left hd
    simp at this

theorem c6_flag_path_amended_witness :
    flag_path ⟨"frame".data ++ ".mmap".data⟩ = ⟨"frame".data ++ "_flag.mmap".data⟩ ∧
    (⟨"frame".data ++ "_flag.mmap".data⟩ : String) ≠ ⟨"frame".data ++ ".mmap".data⟩ :=
  c6_flag_path_amended "frame".data (by decide)

/-- C7: opening an existing mailbox (`create=False`) when the flag file
cannot be opened does not fail the whole open: the constructor falls back
to `_create_flag_file`, so the resulting mailbox has a flag region holding
`1` and reports the preview as enabled. -/
theorem c7_flag_open_fallback (env : OpenEnv)
    (hfail : env.flagOpen = none) (hok : env.flagCreateOk = true) :
    openExisting env =
      some { region := some env.dataBytes, writable := false, flag := some (packU32 1) } ∧
    ∀ m, openExisting env = some m → is_preview_enabled m = true := by
  have hopen : openExisting env =
      some { region := some env.dataBytes, writable := false, flag := some (packU32 1) } := by
    simp [openExisting, hfail, hok]
  refine ⟨hopen, ?_⟩
  intro m hm
  rw [hopen] at hm
  cases hm
  rfl

theorem c7_flag_open_fallback_witness :
    openExisting { dataBytes := [], flagOpen := none, flagCreateOk := true } =
      some { region := some ([] : List Nat), writable := false, flag := some (packU32 1) } :=
  (c7_flag_open_fallback { dataBytes := [], flagOpen := none, flagCreateOk := true }
    rfl rfl).1

/-- C9 (implicit): the read paths are total at the public interface — every
modelled failure (no mapping, header shorter than `HEADER_SIZE`, payload
length inconsistent with `height*width*channels`) maps to the designated
no-frame results `(None, None)` / `None`, and `read_frame` always produces
either `none` or a frame-timestamp pair, never anything else. -/
theorem c9_reads_total :
    (∀ m : Mailbox, m.region = none → read_frame m = none ∧ read_frame_info m = none) ∧
    (∀ (m : Mailbox) (region : List Nat), m.region = some region →
        region.length < HEADER_SIZE → read_frame m = none ∧ read_frame_info m = none) ∧
    (∀ (m : Mailbox) (region : List Nat), m.region = some region →
        HEADER_SIZE ≤ region.length →
        ((region.drop HEADER_SIZE).take (unpackU32 (region.drop 20))).length ≠
          unpackU32 (region.drop 4) * unpackU32 region * unpackU32 (region.drop 8) →
        read_frame m = none) ∧
    (∀ m : Mailbox, read_frame m = none ∨ ∃ ft, read_frame m = some ft) := by
  refine ⟨?_, ?_, ?_, ?_⟩
  · intro m hm
    constructor <;> simp [read_frame, read_frame_info, hm]
  · intro m region hm hshort
    constructor <;> simp [read_frame, read_frame_info, hm, hshort]
  · intro m region hm hlen hmis
    simp only [read_frame, hm]
    rw [if_neg (Nat.not_lt.mpr hlen)]
    by_cases hz : unpackU32 region = 0 ∨ unpackU32 (region.drop 4) = 0 ∨
        unpackU32 (region.drop 20) = 0
    · rw [if_pos hz]
    · rw [if_neg hz, if_neg hmis]
  · intro m
    cases h : read_frame m with
    | none => exact Or.inl rfl
    | some ft => exact Or.inr ⟨ft, rfl⟩

theorem c9_reads_total_witness :
    read_frame { region := none, writable := false, flag := none } = none ∧
    read_frame_info { region := none, writable := false, flag := none } = none :=
  c9_reads_total.1 { region := none, writable := false, flag := none } rfl

/-- C10 (implicit): a mailbox obtained with `create=False` is mapped
`ACCESS_READ`; every `write_frame` attempt on it fails with `False` — the
`mmap` write raises before any byte is modified and the exception is
caught — leaving the state bit-for-bit unchanged. -/
theorem c10_readonly_open_rejects_writes (env : OpenEnv) (m : Mailbox)
    (hopen : openExisting env = some m) (height width channels : Nat)
    (jpeg : Option (List Nat)) (tsec tusec : Nat) :
    m.writable = false ∧
    write_frame m height width channels jpeg tsec tusec = (false, m) := by
  have hwr : m.writable = false := by
    unfold openExisting at hopen
    cases hflag : env.flagOpen with
    | some fb =>
        rw [hflag] at hopen
        cases hopen
        rfl
    | none =>
        rw [hflag] at hopen
        by_cases hc : env.flagCreateOk = true
        · rw [if_pos hc] at hopen
          cases hopen
          rfl
        · rw [if_neg hc] at hopen
          cases hopen
  refine ⟨hwr, ?_⟩
  cases hr : m.region with
  | none => simp [write_frame, hr]
  | some region =>
    cases jpeg with
    | none => simp [write_frame, hr]
    | some jpegBytes =>
      simp only [write_frame, hr]
      split
      · rfl
      · split
        · rw [hwr]
          simp
        · rfl

theorem c10_readonly_open_rejects_writes_witness :
    write_frame { region := some ([] : List Nat), writable := false, flag := some (packU32 1) }
      1 1 3 (some [5]) 0 0 =
      (false, { region := some ([] : List Nat), writable := false, flag := some (packU32 1) }) :=
  (c10_readonly_open_rejects_writes
    { dataBytes := [], flagOpen := some (packU32 1), flagCreateOk := true }
    { region := some ([] : List Nat), writable := false, flag := some (packU32 1) }
    rfl 1 1 3 (some [5]) 0 0).2

end SharedFrameBuffer

namespace CameraCapture

/-- C8: `read_frame` returns `(False, None)` in every state with no
successful grab — in particular in the initial state, whenever the camera
is not opened, and after `stop()` — and in a grabbed state it returns
`True` with an independent, value-identical copy of the stored frame. -/
theorem c8_camera_read_frame :
    (∀ c : Camera, c.grabbed = false → read_frame c = (false, none)) ∧
    (∀ c : Camera, c.is_opened = false → read_frame c = (false, none)) ∧
    read_frame init = (false, none) ∧
    (∀ c : Camera, read_frame (stop c) = (false, none)) ∧
    (∀ (c : Camera) (f : CamFrame), c.is_opened = true → c.grabbed = true →
        c.frame = some f → read_frame c = (true, some (copy f)) ∧ copy f = f) := by
  refine ⟨?_, ?_, ?_, ?_, ?_⟩
  · intro c hg
    cases hf : c.frame with
    | none => simp [read_frame, hf]
    | some f => simp [read_frame, hf, hg]
  · intro c ho
    simp [read_frame, ho]
  · rfl
  · intro c
    simp [read_frame, stop]
  · intro c f ho hg hf
    exact ⟨by simp [read_frame, ho, hg, hf], rfl⟩

theorem c8_camera_read_frame_witness :
    read_frame { is_opened := true, grabbed := true, frame := some { data := [9, 8, 7] },
                 stop_thread := false } =
      (true, some (copy { data := [9, 8, 7] })) ∧
    copy { data := [9, 8, 7] } = { data := [9, 8, 7] } :=
  c8_camera_read_frame.2.2.2.2
    { is_opened := true, grabbed := true, frame := some { data := [9, 8, 7] },
      stop_thread := false }
    { data := [9, 8, 7] } rfl rfl rfl

end CameraCapture
